import Mathlib

/-!
Shallow embedding of the daemon lifecycle core of `xlib/daemon.py` and the
logging configuration of `xlib/loggerconfig.py`, with theorems settling the
specification claims about them.

Conventions of the embedding:
* Python exceptions become an explicit `PyExc` type; a fallible operation
  returns `Except PyExc α`.  `KeyboardInterrupt` and `SystemExit` derive from
  `BaseException` but not from `Exception` in Python 3, which the predicate
  `isException` records (an `except Exception` clause catches a raised
  condition iff `isException` holds of it).
* Filesystem and process state relevant to a function is passed explicitly
  (`SysState` for the pid file and the liveness of pids, `PathState` for the
  stat results of the preflight targets, `Env` for the uids/gids the identity
  properties read).
* `os.kill(pid, 0)` is the liveness probe: it succeeds iff `alive pid`.
-/

namespace Opentrx

/-- Python exception classes the daemon core can raise or catch.
`valueError` and `osError` derive from `Exception`; `keyboardInterrupt` and
`systemExit` derive only from `BaseException`.  `osError` covers
`FileNotFoundError`, `ProcessLookupError` and the rest of the `OSError` tree,
which the daemon code always catches as one group. -/
inductive PyExc where
  | valueError
  | osError
  | keyboardInterrupt
  | systemExit (code : Int)
  | otherException (msg : String)
deriving DecidableEq, Repr

/-- Truth of `isinstance(e, Exception)`: everything except the
`BaseException`-only classes `KeyboardInterrupt` and `SystemExit`. -/
def isException : PyExc → Bool
  | PyExc.keyboardInterrupt => false
  | PyExc.systemExit _ => false
  | _ => true

/-- Value of a digit string read as a base-10 natural number. -/
def digitsToNat (cs : List Char) : Nat :=
  cs.foldl (fun a c => a * 10 + (c.toNat - 48)) 0

/-- Whitespace characters Python `int` strips from both ends of its input. -/
def isSpaceChar (c : Char) : Bool :=
  c = ' ' || c = '\t' || c = '\n' || c = '\r' || c = '\x0b' || c = '\x0c'

/-- Embedding of Python `int(s)` on a string: surrounding whitespace is
stripped, an optional sign is allowed, and the remainder must be a nonempty
run of decimal digits; anything else raises `ValueError`. -/
def pyParseInt (s : String) : Except PyExc Int :=
  let t := ((s.toList.dropWhile isSpaceChar).reverse.dropWhile isSpaceChar).reverse
  let signAndDigits : Bool × List Char :=
    match t with
    | '-' :: rest => (true, rest)
    | '+' :: rest => (false, rest)
    | l => (false, l)
  let neg := signAndDigits.1
  let ds := signAndDigits.2
  if ds.isEmpty || !(ds.all Char.isDigit) then Except.error PyExc.valueError
  else Except.ok (if neg then -(digitsToNat ds : Int) else (digitsToNat ds : Int))

/-- State visible to `status`/`stop`: the content of the pid file (`none` when
the file is absent) and which pids the zero-signal probe reports alive. -/
structure SysState where
  pidfile : Option String
  alive : Int → Bool

/-- Embedding of `open(self.pidfile, 'r')` followed by a full read: absent
file raises `FileNotFoundError` (an `OSError`); reading mutates nothing. -/
def fsOpenRead (s : SysState) : Except PyExc (String × SysState) :=
  match s.pidfile with
  | none => Except.error PyExc.osError
  | some c => Except.ok (c, s)

/-- Embedding of `os.kill(pid, 0)`: the no-op signal succeeds iff the pid is
alive, raises `OSError` otherwise, and mutates nothing. -/
def osKillZero (pid : Int) (s : SysState) : Except PyExc (Unit × SysState) :=
  if s.alive pid then Except.ok ((), s) else Except.error PyExc.osError

/-- Embedding of `Daemon.status` (daemon.py lines 75-88): read the pid file,
parse its content with `int`, probe liveness with signal 0; the
`except (FileNotFoundError, OSError)` clause turns an absent file or a failed
probe into the result 0, while a `ValueError` from parsing propagates.  The
returned state is the state after the call (no branch mutates it). -/
def statusRun (s : SysState) : Except PyExc Int × SysState :=
  match fsOpenRead s with
  | Except.error _ => (Except.ok 0, s)
  | Except.ok (content, s1) =>
    match pyParseInt content with
    | Except.error e => (Except.error e, s1)
    | Except.ok pid =>
      match osKillZero pid s1 with
      | Except.error _ => (Except.ok 0, s1)
      | Except.ok (_, s2) => (Except.ok pid, s2)

/-- Result value of `Daemon.status` alone. -/
def statusResult (s : SysState) : Except PyExc Int :=
  (statusRun s).1

/-- Embedding of `open(self.pidfile, 'x')` followed by
`pidfile.write(str(os.getpid()) + '\x0a')` (daemon.py lines 162-169): exclusive
creation fails with `FileExistsError` when the path already exists, in which
case `__daemonize__` returns `False` and the existing content is untouched;
otherwise the decimal pid and a newline are written and `True` is returned.
The first component is the boolean `__daemonize__` returns from this point,
the second the pid-file content afterwards. -/
def acquire (fs : Option String) (pid : Nat) : Bool × Option String :=
  match fs with
  | some c => (false, some c)
  | none => (true, some (toString pid ++ "\n"))

/-- Sequential effect of a set of concurrent `acquire` attempts on one pid
file: exclusive creation is atomic in the OS, so any interleaving is some
serialization, i.e. a fold of `acquire` over the attempting pids.  Returns
the list of boolean outcomes in order, and the final file content. -/
def raceAcquire (fs : Option String) (pids : List Nat) : List Bool × Option String :=
  match pids with
  | [] => ([], fs)
  | p :: rest =>
    let r1 := acquire fs p
    let r2 := raceAcquire r1.2 rest
    (r1.1 :: r2.1, r2.2)

/-- Result of `Daemon.stop`: the value it returns (or the exception that
propagated out of an inner `status` call) and the number of executed
signal-sleep-recheck loop iterations. -/
structure StopResult where
  finalPid : Except PyExc Int
  iterations : Nat
deriving Repr

/-- Loop body of `Daemon.stop` (daemon.py lines 97-104):
`while not (pid == 0 or attempts < 0)` sends `SIGINT` (swallowing `OSError`),
sleeps, re-reads `status`, and decrements `attempts`.  The environment trace
`env i` is the system state observed by the `i`-th `status` call (the daemon
may die between polls); the fuel is `attempts + 1`, since the loop keeps
running while the decremented counter is still nonnegative. -/
def stopLoop (env : Nat → SysState) : Nat → Nat → Int → StopResult
  | _, 0, pid => ⟨Except.ok pid, 0⟩
  | i, fuel + 1, pid =>
    if pid = 0 then ⟨Except.ok pid, 0⟩
    else
      match statusResult (env i) with
      | Except.error e => ⟨Except.error e, 1⟩
      | Except.ok pid2 =>
        let r := stopLoop env (i + 1) fuel pid2
        ⟨r.finalPid, r.iterations + 1⟩

/-- Embedding of `Daemon.stop` (daemon.py lines 90-105): read `status` once,
then run the signal-and-recheck loop.  `attempts` is the Python parameter
(any integer; default 10). -/
def stop (env : Nat → SysState) (attempts : Int) : StopResult :=
  match statusResult (env 0) with
  | Except.error e => ⟨Except.error e, 0⟩
  | Except.ok pid => stopLoop env 1 (attempts + 1).toNat pid

/-- Stat data of one preflight target: owning uid and the raw `st_mode`. -/
structure FileStat where
  st_uid : Nat
  st_mode : Nat
deriving DecidableEq, Repr

/-- Truth of `filemode(st_mode)[1:3] == 'rw'`: `filemode` renders position 1
as `r` iff bit `0o400` is set and position 2 as `w` iff bit `0o200` is set,
so the slice equals `rw` iff both owner-read and owner-write bits are set. -/
def ownerRW (st : FileStat) : Bool :=
  st.st_mode.testBit 8 && st.st_mode.testBit 7

/-- Stat results (`none` = path does not exist) of the directories and files
the daemon derives from its base directory. -/
structure PathState where
  basedir : Option FileStat
  logdir : Option FileStat
  vardir : Option FileStat
  logfile : Option FileStat
  errfile : Option FileStat

/-- One iteration of the preflight loop in `Daemon.start` (daemon.py lines
118-123): `os.stat(target) if exists(target) else None`, then
`assert filestat is None or (filestat.st_uid == self.uid and
filemode(filestat.st_mode)[1:3] == 'rw')` — a missing target passes, an
existing one must be owned by the resolved uid with owner read and write
permission. -/
def checkTarget (uid : Nat) (st : Option FileStat) : Bool :=
  match st with
  | none => true
  | some f => f.st_uid == uid && ownerRW f

/-- Preflight of `Daemon.start`: the assertion loop runs over exactly
`(self.logdir, self.vardir, self.logfile, self.errfile)`; `true` means every
assertion passed, `false` that an `AssertionError` aborts `start`. -/
def preflight (uid : Nat) (ps : PathState) : Bool :=
  checkTarget uid ps.logdir && checkTarget uid ps.vardir &&
    checkTarget uid ps.logfile && checkTarget uid ps.errfile

/-- Modelled from the spec, for comparison with `preflight`: "all of these
must pre-exist with owner == DaemonIdentity.uid and mode permitting owner
read/write, or the preflight check must fail fast", where "these" ranges over
baseDir, logDir, varDir, logFile and errFile. -/
def preflightSpec (uid : Nat) (ps : PathState) : Bool :=
  [ps.basedir, ps.logdir, ps.vardir, ps.logfile, ps.errfile].all fun st =>
    match st with
    | none => false
    | some f => f.st_uid == uid && ownerRW f

/-- Observable outcome of one `Daemon.start` call in the calling process. -/
inductive StartOutcome where
  | noop
  | aborted
  | forked
  | errored (e : PyExc)
deriving DecidableEq, Repr

/-- Embedding of the guard structure of `Daemon.start` (daemon.py lines
117-124): when `status()` is nonzero the whole body is skipped; when it is
zero the preflight assertions run, and only if they all pass does `os.fork`
happen.  The returned state is the calling process's view of the pid file
and liveness afterwards: none of these steps mutate it. -/
def startStep (uid : Nat) (ps : PathState) (s : SysState) : StartOutcome × SysState :=
  match statusResult s with
  | Except.error e => (StartOutcome.errored e, s)
  | Except.ok p =>
    if p = 0 then
      if preflight uid ps then (StartOutcome.forked, s) else (StartOutcome.aborted, s)
    else (StartOutcome.noop, s)

/-- Process environment read by the identity and base-directory properties:
the caller's real uid and gid, the owner uid/gid of the daemon module file
(`os.stat(__file__)`), the owner uid/gid of the module's directory
(`os.stat(codebasedir)`), and the two candidate base directories. -/
structure Env where
  osuid : Nat
  osgid : Nat
  fileOwnerUid : Nat
  fileOwnerGid : Nat
  dirOwnerUid : Nat
  dirOwnerGid : Nat
  codebasedir : String
  home : String

/-- Embedding of the `Daemon.uid` property body (daemon.py lines 192-196):
`os.stat(__file__).st_uid if osuid == 0 else osuid`. -/
def resolveUid (e : Env) : Nat :=
  if e.osuid = 0 then e.fileOwnerUid else e.osuid

/-- Embedding of the `Daemon.gid` property body (daemon.py lines 198-202):
`os.stat(__file__).st_gid if os.getuid() == 0 else os.getgid()`. -/
def resolveGid (e : Env) : Nat :=
  if e.osuid = 0 then e.fileOwnerGid else e.osgid

/-- Embedding of the `Daemon.basedir` property body (daemon.py lines
248-255): the module directory when `os.getuid() in (0, dir owner uid)`,
else the caller's home directory. -/
def resolveBasedir (e : Env) : String :=
  if e.osuid = 0 ∨ e.osuid = e.dirOwnerUid then e.codebasedir else e.home

/-- Modelled from the spec, for comparison with `resolveUid`: "If it equals 0
(root) or the base directory's owning uid, identity = (baseDir owner uid,
baseDir owner gid). Otherwise identity = (current uid, current gid)". -/
def specIdentityUid (e : Env) : Nat :=
  if e.osuid = 0 ∨ e.osuid = e.dirOwnerUid then e.dirOwnerUid else e.osuid

/-- Modelled from the spec, for comparison with `resolveGid`: the gid half of
the same sentence. -/
def specIdentityGid (e : Env) : Nat :=
  if e.osuid = 0 ∨ e.osuid = e.dirOwnerUid then e.dirOwnerGid else e.osgid

/-- Caching pattern shared by the `uid` and `gid` properties: `if the cached
slot is None, compute and store; return the slot`.  Returns the value and the
slot afterwards. -/
def cachedResolve (resolve : Env → Nat) (cache : Option Nat) (e : Env) : Nat × Option Nat :=
  match cache with
  | some v => (v, some v)
  | none => (resolve e, some (resolve e))

/-- Message logged when the worker's KeyboardInterrupt is trapped
(daemon.py line 131, spelling as in the source). -/
def kiMessage : String := "worker recieved KeyboardInterrupt"

/-- Observable events of the detached grandchild's worker sequence. -/
inductive Event where
  | calledPre
  | calledWorker
  | calledPost
  | logInfo (msg : String)
  | logException (e : PyExc)
deriving DecidableEq, Repr

/-- Behaviour of one overridden callback: `none` = returns normally,
`some e` = raises `e`. -/
abbrev CallbackBehavior := Option PyExc

/-- Tail of the grandchild sequence from the `postworker` call on, given the
trace so far: a raised `Exception` is caught by the outer `except Exception`
and logged, then `sys.exit(0)` runs; a `BaseException` outside the
`Exception` tree propagates and `sys.exit(0)` is never reached. -/
def runPost (tr : List Event) (post : CallbackBehavior) : List Event × Except PyExc Int :=
  match post with
  | none => (tr ++ [Event.calledPost], Except.ok 0)
  | some e =>
    if isException e then (tr ++ [Event.calledPost, Event.logException e], Except.ok 0)
    else (tr ++ [Event.calledPost], Except.error e)

/-- Embedding of the detached grandchild's body in `Daemon.start` (daemon.py
lines 126-135): `preworker`, then `worker` inside an
`except KeyboardInterrupt` handler that logs `kiMessage` at info severity,
then `postworker`, the whole wrapped in `except Exception` which logs via
`logger.exception`, then `sys.exit(0)`.  Result: the event trace and either
`Except.ok code` (the process exits with that status) or `Except.error e`
(the exception propagates uncaught out of `start`). -/
def runWorkers (pre work post : CallbackBehavior) : List Event × Except PyExc Int :=
  match pre with
  | some e =>
    if isException e then ([Event.calledPre, Event.logException e], Except.ok 0)
    else ([Event.calledPre], Except.error e)
  | none =>
    match work with
    | some PyExc.keyboardInterrupt =>
      runPost [Event.calledPre, Event.calledWorker, Event.logInfo kiMessage] post
    | some e =>
      if isException e then
        ([Event.calledPre, Event.calledWorker, Event.logException e], Except.ok 0)
      else ([Event.calledPre, Event.calledWorker], Except.error e)
    | none => runPost [Event.calledPre, Event.calledWorker] post

/-- Handler key of `LoggerConfiguration.__init__` (loggerconfig.py lines
45-46): `loggername + '://' + path + ':' + str(level)`. -/
def handlerKey (loggername path : String) (level : Nat) : String :=
  loggername ++ "://" ++ path ++ ":" ++ toString level

/-- Embedding of the handler-attachment part of
`LoggerConfiguration.__init__` (loggerconfig.py lines 38-63): the logger
state is the list of `handlerid` keys of its attached handlers; the `handlers`
dict is computed once from that list, and each of the log and error handlers
is appended only when its key is absent from that dict. -/
def bindHandlers (loggername logfile errfile : String) (loglevel errlevel : Nat)
    (hs : List String) : List String :=
  let logid := handlerKey loggername logfile loglevel
  let errid := handlerKey loggername errfile errlevel
  let h1 := if logid ∈ hs then hs else hs ++ [logid]
  let h2 := if errid ∈ hs then h1 else h1 ++ [errid]
  h2

/-! Concrete fixtures used by witnesses and counterexamples. -/

/-- Pid-file content a daemon with pid 7 writes. -/
def pidContent7 : String := "7\n"

/-- Pid-file content that does not parse as an integer. -/
def corruptContent : String := "not a pid"

/-- Liveness probe reporting every pid dead. -/
def deadProbe : Int → Bool := fun _ => false

/-- Liveness probe reporting every pid alive. -/
def liveProbe : Int → Bool := fun _ => true

/-- Observation trace of a daemon with pid 7 that never dies. -/
def alwaysAlive : Nat → SysState := fun _ => ⟨some pidContent7, liveProbe⟩

/-! Helper lemmas. -/

/-- Once the pid file exists, every later acquisition attempt in the race
returns `false`. -/
theorem raceAcquire_some_count (c : String) (pids : List Nat) :
    ((raceAcquire (some c) pids).1.count true) = 0 := by
  induction pids with
  | nil => rfl
  | cons p rest ih => simpa [raceAcquire, acquire] using ih

/-- At most one attempt in any serialization of an acquisition race wins. -/
theorem raceAcquire_count_le (fs : Option String) (pids : List Nat) :
    ((raceAcquire fs pids).1.count true) ≤ 1 := by
  cases fs with
  | some c => simp [raceAcquire_some_count]
  | none =>
    cases pids with
    | nil => simp [raceAcquire]
    | cons p rest => simp [raceAcquire, acquire, raceAcquire_some_count]

/-- Claim C1, confirmed: acquisition on an absent pid file writes the decimal
pid (`toString` on `Nat` is the decimal rendering) followed by a newline and
returns `true`; on an existing pid file it returns `false` and leaves the
content exactly as it was; and in every serialization of a set of concurrent
attempts at the same path, at most one attempt returns `true` — the losers
just receive `false`, which `__daemonize__` turns into a quiet `False`
return, not an error. -/
theorem pidfile_acquire_exclusive (pid : Nat) (c : String) (fs : Option String)
    (pids : List Nat) :
    acquire none pid = (true, some (toString pid ++ "\n")) ∧
    acquire (some c) pid = (false, some c) ∧
    ((raceAcquire fs pids).1.count true) ≤ 1 :=
  ⟨rfl, rfl, raceAcquire_count_le fs pids⟩

/-- Claim C7, confirmed: `status` returns 0 when the pid file is absent; when
the file is present and parses to `pid`, it returns `pid` if the zero-signal
probe succeeds and 0 if the probe fails, and in both cases the post-state
still holds the same pid-file content — the stale file is not deleted. -/
theorem status_absent_and_stale (alive : Int → Bool) (c : String) (pid : Int)
    (h : pyParseInt c = Except.ok pid) :
    statusRun ⟨none, alive⟩ = (Except.ok 0, ⟨none, alive⟩) ∧
    statusRun ⟨some c, alive⟩
      = ((if alive pid then Except.ok pid else Except.ok 0), ⟨some c, alive⟩) := by
  refine ⟨rfl, ?_⟩
  cases hl : alive pid <;> simp [statusRun, fsOpenRead, h, osKillZero, hl]

/-- Witness for `status_absent_and_stale` at a stale file: content `"7\n"`,
every pid dead — the probe fails, the result is 0 and the file survives. -/
theorem status_absent_and_stale_witness :
    pyParseInt pidContent7 = Except.ok 7 ∧
    statusRun ⟨some pidContent7, deadProbe⟩
      = (Except.ok 0, ⟨some pidContent7, deadProbe⟩) :=
  ⟨rfl, by simpa [deadProbe] using (status_absent_and_stale deadProbe pidContent7 7 rfl).2⟩

/-- Claim C10, confirmed: when the pid file exists but its content does not
parse as an integer, the `ValueError` from `int` is not in the
`except (FileNotFoundError, OSError)` tuple of `status`, so `status` raises
it instead of returning, and `stop`, whose first `status` call is unguarded,
propagates the same exception. -/
theorem corrupt_pidfile_raises (alive : Int → Bool) (c : String) (attempts : Int)
    (h : pyParseInt c = Except.error PyExc.valueError) :
    statusRun ⟨some c, alive⟩ = (Except.error PyExc.valueError, ⟨some c, alive⟩) ∧
    (stop (fun _ => ⟨some c, alive⟩) attempts).finalPid = Except.error PyExc.valueError := by
  constructor
  · simp [statusRun, fsOpenRead, h]
  · simp [stop, statusResult, statusRun, fsOpenRead, h]

/-- Witness for `corrupt_pidfile_raises`: the content `"not a pid"` makes
both `status` and `stop` raise `ValueError`. -/
theorem corrupt_pidfile_raises_witness :
    pyParseInt corruptContent = Except.error PyExc.valueError ∧
    statusRun ⟨some corruptContent, deadProbe⟩
      = (Except.error PyExc.valueError, ⟨some corruptContent, deadProbe⟩) ∧
    (stop (fun _ => ⟨some corruptContent, deadProbe⟩) 10).finalPid
      = Except.error PyExc.valueError :=
  ⟨rfl, (corrupt_pidfile_raises deadProbe corruptContent 10 rfl).1,
    (corrupt_pidfile_raises deadProbe corruptContent 10 rfl).2⟩

/-- Claim C8, confirmed: when `status()` observes a nonzero pid, the whole
body of `start` is skipped — the outcome is `noop` for every possible
`PathState`, so the preflight is never consulted and no fork happens, the
system state is returned unchanged, so no pid-file write occurs, and
`status` observed afterwards still yields the same pid. -/
theorem start_noop_when_running (uid : Nat) (ps : PathState) (s : SysState) (p : Int)
    (h : statusResult s = Except.ok p) (hp : p ≠ 0) :
    startStep uid ps s = (StartOutcome.noop, s) ∧
    statusResult (startStep uid ps s).2 = Except.ok p := by
  have h1 : startStep uid ps s = (StartOutcome.noop, s) := by
    simp [startStep, h, hp]
  exact ⟨h1, by rw [h1]; exact h⟩

/-- Witness for `start_noop_when_running`: a running daemon with pid 7; the
second `start` leaves everything unchanged. -/
theorem start_noop_when_running_witness :
    statusResult ⟨some pidContent7, liveProbe⟩ = Except.ok 7 ∧
    startStep 5 ⟨none, none, none, none, none⟩ ⟨some pidContent7, liveProbe⟩
      = (StartOutcome.noop, ⟨some pidContent7, liveProbe⟩) :=
  ⟨rfl, (start_noop_when_running 5 ⟨none, none, none, none, none⟩
    ⟨some pidContent7, liveProbe⟩ 7 rfl (by decide)).1⟩

/-- Stat of a path owned by uid 5 with mode `0o600` (owner read/write). -/
def goodStat : FileStat := ⟨5, 384⟩

/-- Stat of a path owned by uid 9 (not the resolved identity) with mode
`0o600`. -/
def badOwnerStat : FileStat := ⟨9, 384⟩

/-- Path state whose base directory has the wrong owner and whose log file
does not exist, while the three targets the code actually checks that exist
are fine. -/
def psHole : PathState :=
  ⟨some badOwnerStat, some goodStat, some goodStat, none, some goodStat⟩

/-- System state with no pid file. -/
def emptyFsState : SysState := ⟨none, deadProbe⟩

/-- Claim C2, counterexample: with resolved uid 5, a missing log file and a
base directory owned by uid 9, the claim requires the preflight to abort
(`preflightSpec`, modelled from the spec's words, is false), but the code's
preflight passes and `start` proceeds all the way to the fork: the assertion
loop never inspects `basedir`, and `os.stat(target) if exists(target) else
None` makes a missing target pass the assertion rather than abort. -/
theorem preflight_skips_absent_counterexample :
    preflightSpec 5 psHole = false ∧ preflight 5 psHole = true ∧
    (startStep 5 psHole emptyFsState).1 = StartOutcome.forked :=
  ⟨rfl, rfl, rfl⟩

/-- Claim C2 as amended, proved: when no instance is running, the preflight
inspects exactly `logDir`, `varDir`, `logFile` and `errFile` (never
`baseDir`); a target that exists must be owned by the resolved uid with the
owner read and write mode bits set, or `start` aborts on the assertion before
any fork; a target that does not exist is skipped and passes. -/
theorem preflight_checks_existing_targets (uid : Nat) (ps : PathState) (s : SysState)
    (h : statusResult s = Except.ok 0) :
    ((startStep uid ps s).1 = StartOutcome.aborted ↔ preflight uid ps = false) ∧
    ((startStep uid ps s).1 = StartOutcome.forked ↔ preflight uid ps = true) ∧
    (preflight uid ps = true ↔
      ∀ st ∈ [ps.logdir, ps.vardir, ps.logfile, ps.errfile], checkTarget uid st = true) ∧
    checkTarget uid none = true ∧
    (∀ f : FileStat, checkTarget uid (some f) = (f.st_uid == uid && ownerRW f)) := by
  refine ⟨?_, ?_, ?_, rfl, fun f => rfl⟩
  · cases hpf : preflight uid ps <;> simp [startStep, h, hpf]
  · cases hpf : preflight uid ps <;> simp [startStep, h, hpf]
  · simp [preflight, and_assoc]

/-- Witness for `preflight_checks_existing_targets`: with no pid file, the
hole-ridden path state from the counterexample still forks, and a path state
whose var directory exists with the wrong owner aborts. -/
theorem preflight_checks_existing_targets_witness :
    statusResult emptyFsState = Except.ok 0 ∧
    ((startStep 5 psHole emptyFsState).1 = StartOutcome.forked ↔ preflight 5 psHole = true) ∧
    ((startStep 5 ⟨none, some goodStat, some badOwnerStat, none, none⟩ emptyFsState).1
        = StartOutcome.aborted
      ↔ preflight 5 ⟨none, some goodStat, some badOwnerStat, none, none⟩ = false) :=
  ⟨rfl, (preflight_checks_existing_targets 5 psHole emptyFsState rfl).2.1,
    (preflight_checks_existing_targets 5
      ⟨none, some goodStat, some badOwnerStat, none, none⟩ emptyFsState rfl).1⟩

/-- Empty placeholder for the string-valued environment fields. -/
def noPath : String := ""

/-- Environment of a non-root caller whose uid equals both the module file's
and the module directory's owner uid, but whose gid (7) differs from the
directory owner's gid (9). -/
def envGidMismatch : Env := ⟨5, 7, 5, 7, 5, 9, noPath, noPath⟩

/-- Claim C3, counterexample: for a non-root caller whose uid equals the base
directory's owning uid, the claim resolves the identity to the directory
owner's uid and gid, but `Daemon.gid` tests only `os.getuid() == 0` and so
returns the caller's own gid: with caller (uid 5, gid 7) and directory owner
(uid 5, gid 9), the spec-modelled gid is 9 while the code yields 7.  (The
uids agree numerically here; only the root branch consults the stat, and
then of the module file, not of the base directory.) -/
theorem identity_gid_counterexample :
    resolveGid envGidMismatch = 7 ∧ specIdentityGid envGidMismatch = 9 ∧
    resolveGid envGidMismatch ≠ specIdentityGid envGidMismatch :=
  ⟨rfl, rfl, by decide⟩

/-- Claim C3 as amended, proved: if the caller's real uid is 0, the identity
is the owner uid and gid of the daemon module file; otherwise the identity is
the caller's own uid and gid (even when that uid equals the base directory
owner's uid).  Independently, `basedir` stays at the module directory when
the caller's uid is 0 or equals that directory's owner uid, and is redirected
to the caller's home directory otherwise.  Each resolved value is cached on
first computation, and a later read returns the cached value unchanged even
if the environment has meanwhile changed. -/
theorem identity_resolution (e e2 : Env) :
    (e.osuid = 0 → resolveUid e = e.fileOwnerUid ∧ resolveGid e = e.fileOwnerGid) ∧
    (e.osuid ≠ 0 → resolveUid e = e.osuid ∧ resolveGid e = e.osgid) ∧
    (e.osuid = 0 ∨ e.osuid = e.dirOwnerUid → resolveBasedir e = e.codebasedir) ∧
    (¬(e.osuid = 0 ∨ e.osuid = e.dirOwnerUid) → resolveBasedir e = e.home) ∧
    cachedResolve resolveUid (cachedResolve resolveUid none e).2 e2
      = ((cachedResolve resolveUid none e).1, (cachedResolve resolveUid none e).2) ∧
    cachedResolve resolveGid (cachedResolve resolveGid none e).2 e2
      = ((cachedResolve resolveGid none e).1, (cachedResolve resolveGid none e).2) := by
  refine ⟨fun h0 => ?_, fun h0 => ?_, fun h0 => ?_, fun h0 => ?_, rfl, rfl⟩
  · simp [resolveUid, resolveGid, h0]
  · simp [resolveUid, resolveGid, h0]
  · simp [resolveBasedir, h0]
  · simp [resolveBasedir, h0]

/-- Root environment fixture: caller (0, 3), module file owner (100, 101). -/
def envRoot : Env := ⟨0, 3, 100, 101, 100, 101, noPath, noPath⟩

/-- Witness for `identity_resolution`, exercising the root branch on
`envRoot`, the non-root branch on `envGidMismatch`, and the home-redirect
branch on a caller whose uid 6 is neither 0 nor the directory owner's 5. -/
theorem identity_resolution_witness :
    (resolveUid envRoot = 100 ∧ resolveGid envRoot = 101) ∧
    (resolveUid envGidMismatch = 5 ∧ resolveGid envGidMismatch = 7) ∧
    resolveBasedir envRoot = envRoot.codebasedir ∧
    resolveBasedir ⟨6, 7, 5, 7, 5, 9, noPath, noPath⟩
      = (⟨6, 7, 5, 7, 5, 9, noPath, noPath⟩ : Env).home :=
  ⟨(identity_resolution envRoot envRoot).1 rfl,
    (identity_resolution envGidMismatch envGidMismatch).2.1 (by decide),
    (identity_resolution envRoot envRoot).2.2.1 (Or.inl rfl),
    (identity_resolution ⟨6, 7, 5, 7, 5, 9, noPath, noPath⟩ envRoot).2.2.2.1 (by decide)⟩

/-- Claim C4, confirmed: whatever `postworker` later does, when `worker`
raises `KeyboardInterrupt` the inner handler logs `kiMessage` at info
severity and control falls through to the `postworker` call, so the trace
always contains both the info record and the `postworker` invocation; and
with a normally returning `postworker` the interrupt has been fully
consumed — the process reaches `sys.exit(0)`. -/
theorem worker_interrupt_trapped (post : CallbackBehavior) :
    Event.logInfo kiMessage ∈ (runWorkers none (some PyExc.keyboardInterrupt) post).1 ∧
    Event.calledPost ∈ (runWorkers none (some PyExc.keyboardInterrupt) post).1 ∧
    (runWorkers none (some PyExc.keyboardInterrupt) none).2 = Except.ok 0 := by
  refine ⟨?_, ?_, rfl⟩ <;>
    cases post with
    | none => simp [runWorkers, runPost]
    | some e =>
      by_cases he : isException e = true <;> simp [runWorkers, runPost, he]

/-- Claim C5, counterexample: a `KeyboardInterrupt` raised inside
`postworker` is an exception other than the worker-level interrupt, yet
`except Exception` does not match it (in Python 3 it derives from
`BaseException` only), so nothing is logged, `sys.exit(0)` is never reached,
and the condition propagates out of the detached process instead of the
process exiting with status 0. -/
theorem postworker_interrupt_escapes_counterexample :
    runWorkers none none (some PyExc.keyboardInterrupt)
      = ([Event.calledPre, Event.calledWorker, Event.calledPost],
          Except.error PyExc.keyboardInterrupt) :=
  rfl

/-- Claim C5 as amended, proved: any `Exception`-class exception (anything
`except Exception` matches, i.e. everything outside the
`KeyboardInterrupt`/`SystemExit` branch of `BaseException`) raised in
`preworker`, `worker` or `postworker` is caught at the top of the detached
process, logged via `logger.exception`, and the process still exits with
status 0; `BaseException`-only conditions raised outside `worker` are not
covered and propagate. -/
theorem exception_in_sequence_caught (e : PyExc) (he : isException e = true)
    (work post : CallbackBehavior) :
    (runWorkers (some e) work post).2 = Except.ok 0 ∧
    Event.logException e ∈ (runWorkers (some e) work post).1 ∧
    (runWorkers none (some e) post).2 = Except.ok 0 ∧
    Event.logException e ∈ (runWorkers none (some e) post).1 ∧
    (runWorkers none none (some e)).2 = Except.ok 0 ∧
    Event.logException e ∈ (runWorkers none none (some e)).1 := by
  cases e <;> simp_all [runWorkers, runPost, isException]

/-- Witness for `exception_in_sequence_caught`: a `ValueError` raised by
`preworker` is logged and the process exits 0. -/
theorem exception_in_sequence_caught_witness :
    isException PyExc.valueError = true ∧
    (runWorkers (some PyExc.valueError) none none).2 = Except.ok 0 :=
  ⟨rfl, (exception_in_sequence_caught PyExc.valueError rfl none none).1⟩

/-- The signal-and-recheck loop runs at most `fuel` iterations. -/
theorem stopLoop_iterations_le (env : Nat → SysState) :
    ∀ (fuel i : Nat) (pid : Int), (stopLoop env i fuel pid).iterations ≤ fuel := by
  intro fuel
  induction fuel with
  | zero => intro i pid; simp [stopLoop]
  | succ f ih =>
    intro i pid
    by_cases hp : pid = 0
    · simp [stopLoop, hp]
    · simp only [stopLoop, hp, if_false]
      cases hst : statusResult (env i) with
      | error e => simp
      | ok pid2 => simpa using Nat.succ_le_succ (ih (i + 1) pid2)

/-- Value returned by the loop: always the pid (or exception) delivered by
the last executed `status` call, whose index in the observation trace is the
number of iterations performed. -/
theorem stopLoop_final (env : Nat → SysState) :
    ∀ (fuel i : Nat) (pid : Int), statusResult (env i) = Except.ok pid →
      (stopLoop env (i + 1) fuel pid).finalPid
        = statusResult (env (i + (stopLoop env (i + 1) fuel pid).iterations)) := by
  intro fuel
  induction fuel with
  | zero => intro i pid h; simp [stopLoop, h]
  | succ f ih =>
    intro i pid h
    by_cases hp : pid = 0
    · subst hp
      simp only [stopLoop, if_pos rfl]
      simpa using h.symm
    · simp only [stopLoop, hp, if_false]
      cases hst : statusResult (env (i + 1)) with
      | error e => simp [hst]
      | ok pid2 =>
        have hrec := ih (i + 1) pid2 hst
        simp [hrec, Nat.add_assoc, Nat.add_comm 1]

/-- Claim C6, counterexample: with `attempts = 0` and a daemon that stays
alive, the claim allows at most 0 signal-and-recheck iterations, but the
loop guard `not (pid == 0 or attempts < 0)` still holds at `attempts = 0`,
so `stop` signals, sleeps and re-checks once before the decrement drives
`attempts` below zero. -/
theorem stop_zero_attempts_iterates_counterexample :
    (stop alwaysAlive 0).iterations = 1 ∧ (stop alwaysAlive 0).finalPid = Except.ok 7 :=
  ⟨rfl, rfl⟩

/-- Claim C6 as amended, proved: for any integer `attempts` value `n`,
`stop n` performs at most `n + 1` signal-sleep-recheck iterations (the loop
body runs while the decremented counter is still nonnegative, so the total
blocking wait is bounded by `(n + 1) × pollInterval`; a negative `n` gives
zero iterations), and it returns the pid delivered by the final `status`
observation — 0 exactly when the last poll confirmed the daemon gone. -/
theorem stop_bounded_returns_last_observation (env : Nat → SysState) (attempts : Int) :
    (stop env attempts).iterations ≤ (attempts + 1).toNat ∧
    (stop env attempts).finalPid = statusResult (env (stop env attempts).iterations) ∧
    (attempts < 0 → (stop env attempts).iterations = 0) := by
  refine ⟨?_, ?_, fun hneg => ?_⟩
  · cases hst : statusResult (env 0) with
    | error e => simp [stop, hst]
    | ok pid => simpa [stop, hst] using stopLoop_iterations_le env (attempts + 1).toNat 1 pid
  · cases hst : statusResult (env 0) with
    | error e => simp [stop, hst]
    | ok pid => simpa [stop, hst] using stopLoop_final env (attempts + 1).toNat 0 pid hst
  · have h0 : (attempts + 1).toNat = 0 := by omega
    cases hst : statusResult (env 0) with
    | error e => simp [stop, hst]
    | ok pid => simp [stop, hst, h0, stopLoop]

/-- Witness for `stop_bounded_returns_last_observation`: against the
always-alive pid-7 trace, the default `attempts = 10` performs at most 11
iterations and returns the last observation, and `attempts = -1` performs
none. -/
theorem stop_bounded_returns_last_observation_witness :
    (stop alwaysAlive 10).iterations ≤ 11 ∧
    (stop alwaysAlive 10).finalPid
      = statusResult (alwaysAlive (stop alwaysAlive 10).iterations) ∧
    (-1 : Int) < 0 ∧ (stop alwaysAlive (-1)).iterations = 0 :=
  ⟨(stop_bounded_returns_last_observation alwaysAlive 10).1,
    (stop_bounded_returns_last_observation alwaysAlive 10).2.1,
    by decide,
    (stop_bounded_returns_last_observation alwaysAlive (-1)).2.2 (by decide)⟩

/-- Claim C9, confirmed: constructing the logging configuration again with
the same `(name, logfile, errfile, loglevel, errlevel)` identity adds no
handler: after one binding both composite keys `name://path:level` are
attached, so every membership test of a re-binding finds its key in the
handler dictionary and the handler list is returned unchanged. -/
theorem logger_binding_idempotent (nme lf ef : String) (ll el : Nat) (hs : List String) :
    bindHandlers nme lf ef ll el (bindHandlers nme lf ef ll el hs)
      = bindHandlers nme lf ef ll el hs ∧
    handlerKey nme lf ll ∈ bindHandlers nme lf ef ll el hs ∧
    handlerKey nme ef el ∈ bindHandlers nme lf ef ll el hs := by
  have hlog : handlerKey nme lf ll ∈ bindHandlers nme lf ef ll el hs := by
    by_cases h1 : handlerKey nme lf ll ∈ hs <;>
      by_cases h2 : handlerKey nme ef el ∈ hs <;>
        simp [bindHandlers, h1, h2]
  have herr : handlerKey nme ef el ∈ bindHandlers nme lf ef ll el hs := by
    by_cases h1 : handlerKey nme lf ll ∈ hs <;>
      by_cases h2 : handlerKey nme ef el ∈ hs <;>
        simp [bindHandlers, h1, h2]
  refine ⟨?_, hlog, herr⟩
  conv_lhs => rw [bindHandlers]
  simp [hlog, herr]

end Opentrx
